import Mathlib

/-!
# Blog-post CRUD service: authorization gate, validation and store pass-through

A shallow embedding of `src/src/index.js`.

* Request bodies and JSON responses are `JsValue`s; `!v` is `JsValue.falsy`.
* `process.env` is an `Env` record of optional strings.
* The token library (`jwt.sign`, `jwt.verify`) is a record of two functions, `JwtLib`;
  the clock both calls read is the explicit argument `now`, in seconds.
* The posts relation is a list of rows with an auto-increment counter, `Db`.  How the
  database driver places a bound JavaScript value into a text column, and how the
  integer key column compares with the bound route segment, are the two fields of
  `Driver`.  A failing round trip to the store is the argument `fault`.
* Every route handler returns an `Outcome`: the response sent, the store afterwards and
  the statements issued.

The embedding covers a request from the moment it is handed to its route; the rate
limiter and the body readers in front of the routes are not part of it.
-/

namespace Blog

/-! ## JavaScript values -/

/-- JavaScript values of parsed bodies and JSON responses (numbers are integers). -/
inductive JsValue where
  | undefined
  | null
  | bool (b : Bool)
  | num (n : Int)
  | str (s : String)
  | arr (xs : List JsValue)
  | obj (fields : List (String × JsValue))

namespace JsValue

/-- The test `!v`: true exactly on undefined, null, false, 0 and the empty string. -/
def falsy : JsValue → Bool
  | undefined => true
  | null => true
  | bool b => !b
  | num n => n == 0
  | str s => s == ""
  | arr _ => false
  | obj _ => false

/-- Property read on a list of own properties; an absent key reads as undefined. -/
def lookup (k : String) : List (String × JsValue) → JsValue
  | [] => undefined
  | (k', v) :: rest => if k' = k then v else lookup k rest

/-- Property read `v.k`. -/
def get (v : JsValue) (k : String) : JsValue :=
  match v with
  | obj fields => lookup k fields
  | _ => undefined

/-- Whether a list of own properties has the key. -/
def hasKey (k : String) (fields : List (String × JsValue)) : Bool :=
  fields.any (fun kv => kv.1 == k)

/-- Strict equality `v === e` of a body value with an environment entry. -/
def strictEq : JsValue → Option String → Bool
  | undefined, none => true
  | str s, some t => s == t
  | _, _ => false

/-- The value is a string with at least one character. -/
def IsNonEmptyText : JsValue → Prop
  | str s => s ≠ ""
  | _ => False

end JsValue

/-- The test `!s` on a value that is a string or undefined. -/
def strFalsy : Option String → Bool
  | none => true
  | some s => s == ""

/-! ## `String.prototype.split` on a one-character separator -/

/-- Pieces of `cs` between occurrences of `sep`; never the empty list. -/
def splitChars (sep : Char) : List Char → List (List Char)
  | [] => [[]]
  | c :: cs =>
    if c = sep then [] :: splitChars sep cs
    else
      match splitChars sep cs with
      | [] => [[c]]
      | piece :: pieces => (c :: piece) :: pieces

/-- The space character. -/
def space : Char := Char.ofNat 32

/-- The expression `h.split(' ')`. -/
def splitSpace (h : String) : List String :=
  (splitChars space h.data).map String.mk

/-! ## Requests, responses, environment -/

/-- An HTTP response: status and JSON body. -/
structure Response where
  status : Nat
  body : JsValue

/-- The parts of `req` the handlers read or write. -/
structure Request where
  /-- The header `req.headers['authorization']`. -/
  authorization : Option String
  /-- Own properties of `req.body`. -/
  body : List (String × JsValue)
  /-- The route segment `req.params.id`. -/
  id : String
  /-- The field `req.user`, set by the gate. -/
  user : Option JsValue

/-- The entries of `process.env` the handlers read. -/
structure Env where
  JWTSecret : Option String
  AdminUsername : Option String
  AdminPassword : Option String

/-- The token library: `sign payload secret expiresIn now` and `verify token secret now`
(`none` is the error branch of the callback). -/
structure JwtLib where
  sign : JsValue → String → Nat → Nat → String
  verify : String → String → Nat → Option JsValue

/-- The option `expiresIn: '1h'`, in seconds. -/
def oneHour : Nat := 60 * 60

/-- The body `{ error: msg }`. -/
def errorBody (msg : String) : JsValue :=
  .obj [("error", .str msg)]

/-- The call `res.status(code).json({ error: msg })`. -/
def errorResponse (code : Nat) (msg : String) : Response :=
  ⟨code, errorBody msg⟩

/-! ## Authentication middleware -/

/-- What the middleware did: sent a response, or called `next()` with the request. -/
inductive GateResult where
  | respond (res : Response)
  | next (req : Request)

/-- The expression `req.headers['authorization']?.split(' ')[1]`. -/
def bearerToken (req : Request) : Option String :=
  req.authorization.bind (fun h => (splitSpace h)[1]?)

/-- The middleware `authenticateToken`. -/
def authenticateToken (env : Env) (jwt : JwtLib) (now : Nat) (req : Request) : GateResult :=
  let token := bearerToken req
  if strFalsy token then
    .respond (errorResponse 401 "Error: Auth Token Not Found")
  else if strFalsy env.JWTSecret then
    .respond (errorResponse 500 "Error: Unconfigured JWT Secret")
  else
    match jwt.verify (token.getD "") (env.JWTSecret.getD "") now with
    | none => .respond (errorResponse 403 "Error: Token Invalid o Expired")
    | some user => .next { req with user := some user }

/-! ## Login -/

/-- The handler of `POST /login`. -/
def postLogin (env : Env) (jwt : JwtLib) (now : Nat) (req : Request) : Response :=
  let username := JsValue.lookup "username" req.body
  let password := JsValue.lookup "password" req.body
  if strFalsy env.JWTSecret then
    errorResponse 500 "Error: Unconfigured JWT Secret"
  else if username.falsy || password.falsy then
    errorResponse 400 "Error: Missing fields must be filled (username, password)"
  else if username.strictEq env.AdminUsername && password.strictEq env.AdminPassword then
    let token := jwt.sign (.obj [("username", username)]) (env.JWTSecret.getD "") oneHour now
    ⟨200, .obj [("message", .str "Success: You logged in the system!"), ("token", .str token)]⟩
  else
    errorResponse 401 "Unsuccessful: Invalid Login Credentials"

/-! ## The posts relation and the driver -/

/-- A row of the posts relation: the integer key and three text columns
(`none` is SQL NULL). -/
structure Post where
  id : Nat
  title : Option String
  content : Option String
  author : Option String
  deriving DecidableEq

/-- The posts relation with its auto-increment counter. -/
structure Db where
  rows : List Post
  nextId : Nat

/-- The error value a rejected `pool.query` promise carries. -/
abbrev StoreError := String

/-- The two places where the database driver interprets a bound value.
`bindText v` is what a text column receives when `v` is bound to it (an error when the
statement is rejected); `idEq k s` is the comparison `id = ?` of key `k` with the bound
route segment `s`. -/
structure Driver where
  bindText : JsValue → Except StoreError (Option String)
  idEq : Nat → String → Bool

/-- The five statements of the source, with their bound values. -/
inductive Query where
  /-- The statement `SELECT id, title, content, author FROM posts`. -/
  | selectAll
  /-- The statement `SELECT id, title, content, author FROM posts WHERE id = ?`. -/
  | selectById (id : String)
  /-- The statement `INSERT INTO posts (title, content, author) VALUES (?, ?, ?)`. -/
  | insert (title content author : JsValue)
  /-- The statement `UPDATE posts SET title = ?, content = ?, author = ? WHERE id = ?`. -/
  | update (title content author : JsValue) (id : String)
  /-- The statement `DELETE FROM posts WHERE id = ?`. -/
  | delete (id : String)

/-- First component of what `pool.query` resolves to: the rows of a SELECT, and the
`insertId` and `affectedRows` of a data-changing statement. -/
structure QueryResult where
  rows : List Post
  insertId : Nat
  affectedRows : Nat

/-- The rows a `WHERE id = ?` clause selects. -/
def Driver.hit (drv : Driver) (id : String) (r : Post) : Bool :=
  drv.idEq r.id id

/-- The call `pool.query(sql, values)`.  With `fault = some e` the promise is rejected with
`e` and the relation is left as it was.  An insert takes the key from the counter; an update
or delete reports in `affectedRows` the number of rows its WHERE clause selects. -/
def poolQuery (drv : Driver) (fault : Option StoreError) (db : Db) (q : Query) :
    Except StoreError (QueryResult × Db) :=
  match fault with
  | some e => .error e
  | none =>
    match q with
    | .selectAll => .ok (⟨db.rows, 0, 0⟩, db)
    | .selectById id => .ok (⟨db.rows.filter (drv.hit id), 0, 0⟩, db)
    | .insert title content author =>
      match drv.bindText title, drv.bindText content, drv.bindText author with
      | .ok t, .ok c, .ok a =>
        .ok (⟨[], db.nextId, 1⟩, ⟨db.rows ++ [⟨db.nextId, t, c, a⟩], db.nextId + 1⟩)
      | .error e, _, _ => .error e
      | _, .error e, _ => .error e
      | _, _, .error e => .error e
    | .update title content author id =>
      match drv.bindText title, drv.bindText content, drv.bindText author with
      | .ok t, .ok c, .ok a =>
        .ok (⟨[], 0, (db.rows.filter (drv.hit id)).length⟩,
          ⟨db.rows.map (fun r => if drv.hit id r then ⟨r.id, t, c, a⟩ else r), db.nextId⟩)
      | .error e, _, _ => .error e
      | _, .error e, _ => .error e
      | _, _, .error e => .error e
    | .delete id =>
      .ok (⟨[], 0, (db.rows.filter (drv.hit id)).length⟩,
        ⟨db.rows.filter (fun r => !drv.hit id r), db.nextId⟩)

/-- A text column as a JSON value. -/
def textToJs : Option String → JsValue
  | none => .null
  | some s => .str s

/-- A selected row as the JSON object the driver hands back. -/
def Post.toJs (p : Post) : JsValue :=
  .obj [("id", .num p.id), ("title", textToJs p.title), ("content", textToJs p.content),
    ("author", textToJs p.author)]

/-! ## The /posts handlers -/

/-- What handling one request did: the response, the relation afterwards, the statements
issued. -/
structure Outcome where
  response : Response
  db : Db
  issued : List Query

/-- The body `{ message: msg, data: data }`. -/
def successBody (msg : String) (data : JsValue) : JsValue :=
  .obj [("message", .str msg), ("data", data)]

/-- The response of every `catch` block. -/
def storeFailure : Response :=
  errorResponse 500 "Unsuccessful: Something went wrong! Please try again later."

/-- The response for an id that selects no row. -/
def notFound : Response :=
  errorResponse 404 "Unsuccessful: Post cannot be found!"

/-- The response of the field check of `POST /posts` and `PUT /posts/:id`. -/
def missingFields : Response :=
  errorResponse 400 "Error: Missing fields must be filled (title, content, author)"

/-- The handler of `GET /posts`. -/
def getPosts (drv : Driver) (fault : Option StoreError) (db : Db) (_req : Request) : Outcome :=
  let q := Query.selectAll
  match poolQuery drv fault db q with
  | .ok (result, db') =>
    ⟨⟨200, successBody "Success: All posts have been retrieved!"
      (.arr (result.rows.map Post.toJs))⟩, db', [q]⟩
  | .error _ => ⟨storeFailure, db, [q]⟩

/-- The handler of `GET /posts/:id`. -/
def getPostById (drv : Driver) (fault : Option StoreError) (db : Db) (req : Request) :
    Outcome :=
  let q := Query.selectById req.id
  match poolQuery drv fault db q with
  | .ok (result, db') =>
    match result.rows with
    | [] => ⟨notFound, db', [q]⟩
    | row :: _ => ⟨⟨200, successBody "Success: A post has been retrieved!" row.toJs⟩, db', [q]⟩
  | .error _ => ⟨storeFailure, db, [q]⟩

/-- The handler of `POST /posts`, behind the gate. -/
def postPostsHandler (drv : Driver) (fault : Option StoreError) (db : Db) (req : Request) :
    Outcome :=
  let title := JsValue.lookup "title" req.body
  let content := JsValue.lookup "content" req.body
  let author := JsValue.lookup "author" req.body
  if title.falsy || content.falsy || author.falsy then
    ⟨missingFields, db, []⟩
  else
    let q := Query.insert title content author
    match poolQuery drv fault db q with
    | .ok (result, db') =>
      ⟨⟨201, successBody "Success: A post has been created!"
        (.obj [("id", .num result.insertId), ("title", title), ("content", content),
          ("author", author)])⟩, db', [q]⟩
    | .error _ => ⟨storeFailure, db, [q]⟩

/-- The handler of `PUT /posts/:id`, behind the gate. -/
def putPostHandler (drv : Driver) (fault : Option StoreError) (db : Db) (req : Request) :
    Outcome :=
  let title := JsValue.lookup "title" req.body
  let content := JsValue.lookup "content" req.body
  let author := JsValue.lookup "author" req.body
  if title.falsy || content.falsy || author.falsy then
    ⟨missingFields, db, []⟩
  else
    let q := Query.update title content author req.id
    match poolQuery drv fault db q with
    | .ok (result, db') =>
      if result.affectedRows = 0 then ⟨notFound, db', [q]⟩
      else
        ⟨⟨200, successBody "Success: A post has been updated!"
          (.obj [("id", .str req.id), ("title", title), ("content", content),
            ("author", author)])⟩, db', [q]⟩
    | .error _ => ⟨storeFailure, db, [q]⟩

/-- The handler of `DELETE /posts/:id`, behind the gate. -/
def deletePostHandler (drv : Driver) (fault : Option StoreError) (db : Db) (req : Request) :
    Outcome :=
  let q := Query.delete req.id
  match poolQuery drv fault db q with
  | .ok (result, db') =>
    if result.affectedRows = 0 then ⟨notFound, db', [q]⟩
    else
      ⟨⟨200, successBody "Success: A post has been deleted!" (.obj [("id", .str req.id)])⟩,
        db', [q]⟩
  | .error _ => ⟨storeFailure, db, [q]⟩

/-- A route registered as `app.METHOD(path, authenticateToken, handler)`: the handler runs
only when the middleware calls `next()`. -/
def guarded (env : Env) (jwt : JwtLib) (now : Nat) (handler : Db → Request → Outcome)
    (db : Db) (req : Request) : Outcome :=
  match authenticateToken env jwt now req with
  | .respond res => ⟨res, db, []⟩
  | .next req' => handler db req'

/-- The route `POST /posts`. -/
def postPosts (env : Env) (jwt : JwtLib) (drv : Driver) (now : Nat)
    (fault : Option StoreError) (db : Db) (req : Request) : Outcome :=
  guarded env jwt now (postPostsHandler drv fault) db req

/-- The route `PUT /posts/:id`. -/
def putPost (env : Env) (jwt : JwtLib) (drv : Driver) (now : Nat)
    (fault : Option StoreError) (db : Db) (req : Request) : Outcome :=
  guarded env jwt now (putPostHandler drv fault) db req

/-- The route `DELETE /posts/:id`. -/
def deletePost (env : Env) (jwt : JwtLib) (drv : Driver) (now : Nat)
    (fault : Option StoreError) (db : Db) (req : Request) : Outcome :=
  guarded env jwt now (deletePostHandler drv fault) db req

/-! ## The application -/

/-- The six endpoints. -/
inductive Endpoint where
  | login
  | listPosts
  | getPost
  | createPost
  | updatePost
  | deletePost
  deriving DecidableEq

/-- One request as the application receives it: the endpoint it is routed to, the request,
the clock reading, and whether the store round trip fails. -/
structure Call where
  endpoint : Endpoint
  req : Request
  now : Nat
  fault : Option StoreError

/-- Routing of one request. -/
def app (env : Env) (jwt : JwtLib) (drv : Driver) (db : Db) (c : Call) : Outcome :=
  match c.endpoint with
  | .login => ⟨postLogin env jwt c.now c.req, db, []⟩
  | .listPosts => getPosts drv c.fault db c.req
  | .getPost => getPostById drv c.fault db c.req
  | .createPost => postPosts env jwt drv c.now c.fault db c.req
  | .updatePost => putPost env jwt drv c.now c.fault db c.req
  | .deletePost => deletePost env jwt drv c.now c.fault db c.req

/-- The relation after a sequence of requests, handled one after the other. -/
def run (env : Env) (jwt : JwtLib) (drv : Driver) (db : Db) : List Call → Db
  | [] => db
  | c :: cs => run env jwt drv (app env jwt drv db c).db cs

/-- What the rest of the pipeline observes of the gate: the response it sent, or the
identity it attached before calling `next()`. -/
def GateResult.verdict : GateResult → Response ⊕ Option JsValue
  | .respond res => .inl res
  | .next req => .inr req.user

/-- The contract of the token library on the token it issues for `payload` under `secret`
at time `iat` with lifetime `ttl`: the token is a non-empty string without a space;
verified under the same secret it decodes to an identity with the username of the payload
as long as the clock is below `iat + ttl`, and verification fails from `iat + ttl` on. -/
def JwtLib.Honours (jwt : JwtLib) (payload : JsValue) (secret : String) (ttl iat : Nat) :
    Prop :=
  jwt.sign payload secret ttl iat ≠ "" ∧
  space ∉ (jwt.sign payload secret ttl iat).data ∧
  (∀ t, t < iat + ttl → ∃ user, jwt.verify (jwt.sign payload secret ttl iat) secret t
      = some user ∧ user.get "username" = payload.get "username") ∧
  (∀ t, iat + ttl ≤ t → jwt.verify (jwt.sign payload secret ttl iat) secret t = none)

/-- The body of a successful login. -/
def loginBody (token : String) : JsValue :=
  .obj [("message", .str "Success: You logged in the system!"), ("token", .str token)]

/-- The gate lets the request through. -/
def Authorized (env : Env) (jwt : JwtLib) (now : Nat) (req : Request) : Prop :=
  ∃ user, authenticateToken env jwt now req = .next { req with user := some user }

/-- Keys handed out by the auto-increment counter lie below it. -/
def Db.WF (db : Db) : Prop :=
  ∀ r ∈ db.rows, r.id < db.nextId

/-- The driver stores a bound string verbatim in a text column. -/
def Driver.StoresText (drv : Driver) : Prop :=
  ∀ s : String, drv.bindText (.str s) = .ok (some s)

/-- The route segment `s` selects exactly the rows with key `n`. -/
def Driver.Addresses (drv : Driver) (s : String) (n : Nat) : Prop :=
  ∀ k, drv.idEq k s = decide (k = n)

/-- The route segment of `GET /posts/<n>`: the decimal rendering of the key. -/
def idSegment (n : Nat) : String := toString n

/-- A text column holds a non-null, non-empty text. -/
def NonEmptyColumn (c : Option String) : Prop :=
  ∃ s, c = some s ∧ s ≠ ""

/-- Every row has non-null, non-empty title, content and author. -/
def TextInvariant (db : Db) : Prop :=
  ∀ r ∈ db.rows, NonEmptyColumn r.title ∧ NonEmptyColumn r.content ∧ NonEmptyColumn r.author

/-- The body field `k` of the request is falsy or a string. -/
def TextOrFalsy (req : Request) (k : String) : Prop :=
  (JsValue.lookup k req.body).falsy = true ∨ ∃ s, JsValue.lookup k req.body = .str s

/-- The three post fields of the body are each falsy or a string. -/
def TextBody (req : Request) : Prop :=
  TextOrFalsy req "title" ∧ TextOrFalsy req "content" ∧ TextOrFalsy req "author"

/-! ## Sample values -/

/-- A token library that knows a single token, valid under one secret for one hour from
time 0. -/
def sampleJwt : JwtLib where
  sign := fun _ _ _ _ => "tok"
  verify := fun token secret now =>
    if token = "tok" ∧ secret = "s3cret" ∧ now < oneHour then
      some (.obj [("username", .str "admin"), ("iat", .num 0), ("exp", .num 3600)])
    else none

/-- An environment with all three entries set. -/
def sampleEnv : Env := ⟨some "s3cret", some "admin", some "hunter2"⟩

/-- A request with a valid bearer token and the body `{title:"A", content:"B", author:"C"}`. -/
def sampleReq : Request :=
  ⟨some "Bearer tok", [("title", .str "A"), ("content", .str "B"), ("author", .str "C")], "1",
    none⟩

/-- Value of a decimal digit. -/
def digitValue (c : Char) : Option Nat :=
  if 48 ≤ c.toNat ∧ c.toNat ≤ 57 then some (c.toNat - 48) else none

/-- Reading of a string of decimal digits, most significant first, onto `acc`. -/
def parseDecimal (acc : Nat) : List Char → Option Nat
  | [] => some acc
  | c :: cs =>
    match digitValue c with
    | none => none
    | some d => parseDecimal (10 * acc + d) cs

/-- A driver that stores a string verbatim, a number by its decimal rendering and a
one-element array of a string as that string (a bound array is expanded into the list of its
elements), rejects every other bound value, and compares a key with the decimal reading of
the segment. -/
def sampleDriver : Driver where
  bindText := fun v =>
    match v with
    | .str s => .ok (some s)
    | .num n => .ok (some (toString n))
    | .arr [.str s] => .ok (some s)
    | _ => .error "ER_PARSE_ERROR"
  idEq := fun k s => s ≠ "" ∧ parseDecimal 0 s.data = some k

/-- The empty relation. -/
def emptyDb : Db := ⟨[], 1⟩

/-- A relation with the single row `{id: 1, title: "old", content: "old", author: "old"}`. -/
def oneRowDb : Db := ⟨[⟨1, some "old", some "old", some "old"⟩], 2⟩

/-- A request with a valid bearer token and the body `{title: 1, content:"B", author:"C"}`. -/
def numericTitleReq : Request :=
  ⟨some "Bearer tok", [("title", .num 1), ("content", .str "B"), ("author", .str "C")], "1",
    none⟩

/-! ## Splitting a header -/

theorem splitChars_ne_nil (sep : Char) (cs : List Char) : splitChars sep cs ≠ [] := by
  induction cs with
  | nil => simp [splitChars]
  | cons c cs ih =>
    unfold splitChars
    split
    · simp
    · split <;> simp

theorem splitChars_no_sep (sep : Char) (cs : List Char) (h : sep ∉ cs) :
    splitChars sep cs = [cs] := by
  induction cs with
  | nil => rfl
  | cons c cs ih =>
    have hc : c ≠ sep := fun e => h (by simp [e])
    have hcs : sep ∉ cs := fun e => h (by simp [e])
    simp [splitChars, hc, ih hcs]

theorem splitChars_append_sep (sep : Char) (a b : List Char) (h : sep ∉ a) :
    splitChars sep (a ++ sep :: b) = a :: splitChars sep b := by
  induction a with
  | nil => simp [splitChars]
  | cons c cs ih =>
    have hc : c ≠ sep := fun e => h (by simp [e])
    have hcs : sep ∉ cs := fun e => h (by simp [e])
    simp [splitChars, hc, ih hcs]

/-- The second piece of `s ++ " " ++ t` is the first piece of `t`. -/
theorem splitSpace_second (s t : String) (hs : space ∉ s.data) :
    (splitSpace (s ++ " " ++ t))[1]? = (splitSpace t)[0]? := by
  have h : (s ++ " " ++ t).data = s.data ++ space :: t.data := by
    simp [String.data_append]
    rfl
  simp [splitSpace, h, splitChars_append_sep space _ _ hs]

theorem splitSpace_no_space (h : String) (hs : space ∉ h.data) : (splitSpace h)[1]? = none := by
  simp [splitSpace, splitChars_no_sep space _ hs]

theorem splitSpace_first_no_space (t : String) (ht : space ∉ t.data) :
    (splitSpace t)[0]? = some t := by
  simp [splitSpace, splitChars_no_sep space _ ht]

/-! ## The authorization gate -/

theorem strFalsy_false_iff (o : Option String) :
    strFalsy o = false ↔ ∃ s, o = some s ∧ s ≠ "" := by
  cases o with
  | none => simp [strFalsy]
  | some s => simp [strFalsy]

theorem gate_401 (env : Env) (jwt : JwtLib) (now : Nat) (req : Request)
    (h : strFalsy (bearerToken req) = true) :
    authenticateToken env jwt now req
      = .respond (errorResponse 401 "Error: Auth Token Not Found") := by
  simp [authenticateToken, h]

theorem gate_500 (env : Env) (jwt : JwtLib) (now : Nat) (req : Request)
    (h : strFalsy (bearerToken req) = false) (hs : strFalsy env.JWTSecret = true) :
    authenticateToken env jwt now req
      = .respond (errorResponse 500 "Error: Unconfigured JWT Secret") := by
  simp [authenticateToken, h, hs]

theorem gate_verify (env : Env) (jwt : JwtLib) (now : Nat) (req : Request)
    (token secret : String) (h : bearerToken req = some token) (hne : token ≠ "")
    (hs : env.JWTSecret = some secret) (hsne : secret ≠ "") :
    authenticateToken env jwt now req
      = match jwt.verify token secret now with
        | none => .respond (errorResponse 403 "Error: Token Invalid o Expired")
        | some user => .next { req with user := some user } := by
  simp [authenticateToken, h, hs, strFalsy, hne, hsne]

/-- The four outcomes of the gate, in the order they are decided. -/
theorem gate_cases (env : Env) (jwt : JwtLib) (now : Nat) (req : Request) :
    (strFalsy (bearerToken req) = true ∧
      authenticateToken env jwt now req
        = .respond (errorResponse 401 "Error: Auth Token Not Found")) ∨
    (strFalsy (bearerToken req) = false ∧ strFalsy env.JWTSecret = true ∧
      authenticateToken env jwt now req
        = .respond (errorResponse 500 "Error: Unconfigured JWT Secret")) ∨
    (∃ token secret, bearerToken req = some token ∧ token ≠ "" ∧
      env.JWTSecret = some secret ∧ secret ≠ "" ∧ jwt.verify token secret now = none ∧
      authenticateToken env jwt now req
        = .respond (errorResponse 403 "Error: Token Invalid o Expired")) ∨
    (∃ token secret user, bearerToken req = some token ∧ token ≠ "" ∧
      env.JWTSecret = some secret ∧ secret ≠ "" ∧ jwt.verify token secret now = some user ∧
      authenticateToken env jwt now req = .next { req with user := some user }) := by
  cases ht : strFalsy (bearerToken req) with
  | true => exact Or.inl ⟨rfl, gate_401 env jwt now req ht⟩
  | false =>
    cases hs : strFalsy env.JWTSecret with
    | true => exact Or.inr (Or.inl ⟨rfl, rfl, gate_500 env jwt now req ht hs⟩)
    | false =>
      obtain ⟨token, htok, hne⟩ := (strFalsy_false_iff _).1 ht
      obtain ⟨secret, hsec, hsne⟩ := (strFalsy_false_iff _).1 hs
      have hg := gate_verify env jwt now req token secret htok hne hsec hsne
      cases hv : jwt.verify token secret now with
      | none =>
        rw [hv] at hg
        exact Or.inr (Or.inr (Or.inl ⟨token, secret, htok, hne, hsec, hsne, hv, hg⟩))
      | some user =>
        rw [hv] at hg
        exact Or.inr (Or.inr (Or.inr ⟨token, secret, user, htok, hne, hsec, hsne, hv, hg⟩))

/-- C1: the gate has exactly four outcomes, decided in this order: no bearer token is
extracted from the header, 401 (whether or not a secret is configured); else no signing
secret is configured, 500; else verification fails, 403; else the gate sends no response,
attaches the decoded identity to the request and hands it to the downstream handler, which
is applied once. -/
theorem authenticateToken_four_outcomes (env : Env) (jwt : JwtLib) (now : Nat)
    (req : Request) :
    (strFalsy (bearerToken req) = true ∧
      authenticateToken env jwt now req
        = .respond (errorResponse 401 "Error: Auth Token Not Found")) ∨
    (strFalsy (bearerToken req) = false ∧ strFalsy env.JWTSecret = true ∧
      authenticateToken env jwt now req
        = .respond (errorResponse 500 "Error: Unconfigured JWT Secret")) ∨
    (∃ token secret, bearerToken req = some token ∧ token ≠ "" ∧
      env.JWTSecret = some secret ∧ secret ≠ "" ∧ jwt.verify token secret now = none ∧
      authenticateToken env jwt now req
        = .respond (errorResponse 403 "Error: Token Invalid o Expired")) ∨
    (∃ token secret user, bearerToken req = some token ∧ token ≠ "" ∧
      env.JWTSecret = some secret ∧ secret ≠ "" ∧ jwt.verify token secret now = some user ∧
      authenticateToken env jwt now req = .next { req with user := some user } ∧
      ∀ (handler : Db → Request → Outcome) (db : Db),
        guarded env jwt now handler db req = handler db { req with user := some user }) := by
  rcases gate_cases env jwt now req with h | h | h | ⟨token, secret, user, h1, h2, h3, h4, h5, hg⟩
  · exact Or.inl h
  · exact Or.inr (Or.inl h)
  · exact Or.inr (Or.inr (Or.inl h))
  · refine Or.inr (Or.inr (Or.inr ⟨token, secret, user, h1, h2, h3, h4, h5, hg, ?_⟩))
    intro handler db
    simp [guarded, hg]

theorem gate_verdict_congr (env : Env) (jwt : JwtLib) (now : Nat) (r1 r2 : Request)
    (h : bearerToken r1 = bearerToken r2) :
    (authenticateToken env jwt now r1).verdict = (authenticateToken env jwt now r2).verdict := by
  unfold authenticateToken
  simp only [h]
  split
  · rfl
  · split
    · rfl
    · cases jwt.verify ((bearerToken r2).getD "") (env.JWTSecret.getD "") now <;> rfl

/-- C10: the gate takes the second space-separated piece of the header as the token and
never looks at the first: two headers with first pieces `s1`, `s2` and the same remainder
`t` get the same outcome, and a header with no second piece, or an empty one, gets 401. -/
theorem gate_reads_second_segment_only (env : Env) (jwt : JwtLib) (now : Nat) (req : Request)
    (s1 s2 t : String) (h1 : space ∉ s1.data) (h2 : space ∉ s2.data) :
    (authenticateToken env jwt now { req with authorization := some (s1 ++ " " ++ t) }).verdict
      = (authenticateToken env jwt now
          { req with authorization := some (s2 ++ " " ++ t) }).verdict ∧
    bearerToken { req with authorization := some (s1 ++ " " ++ t) } = (splitSpace t)[0]? ∧
    (∀ h : String, (splitSpace h)[1]? = none ∨ (splitSpace h)[1]? = some "" →
      authenticateToken env jwt now { req with authorization := some h }
        = .respond (errorResponse 401 "Error: Auth Token Not Found")) ∧
    authenticateToken env jwt now { req with authorization := some s1 }
      = .respond (errorResponse 401 "Error: Auth Token Not Found") ∧
    authenticateToken env jwt now { req with authorization := some (s1 ++ " ") }
      = .respond (errorResponse 401 "Error: Auth Token Not Found") := by
  have hgen : ∀ h : String, (splitSpace h)[1]? = none ∨ (splitSpace h)[1]? = some "" →
      authenticateToken env jwt now { req with authorization := some h }
        = .respond (errorResponse 401 "Error: Auth Token Not Found") := by
    intro h hh
    apply gate_401
    rcases hh with hh | hh <;> simp [bearerToken, hh, strFalsy]
  refine ⟨?_, ?_, hgen, ?_, ?_⟩
  · apply gate_verdict_congr
    simp [bearerToken, splitSpace_second, h1, h2]
  · simp [bearerToken, splitSpace_second, h1]
  · exact hgen s1 (Or.inl (splitSpace_no_space s1 h1))
  · refine hgen _ (Or.inr ?_)
    have h := splitSpace_second s1 "" h1
    simpa [String.append_empty, splitSpace, splitChars] using h

/-- C10 at the headers `Bearer tok` and `Basic tok`. -/
theorem gate_reads_second_segment_only_witness :
    space ∉ "Bearer".data ∧ space ∉ "Basic".data ∧
    (authenticateToken sampleEnv sampleJwt 0
        { sampleReq with authorization := some ("Bearer" ++ " " ++ "tok") }).verdict
      = (authenticateToken sampleEnv sampleJwt 0
          { sampleReq with authorization := some ("Basic" ++ " " ++ "tok") }).verdict :=
  ⟨by decide, by decide,
    (gate_reads_second_segment_only sampleEnv sampleJwt 0 sampleReq "Bearer" "Basic" "tok"
      (by decide) (by decide)).1⟩

/-! ## Login -/

/-- C3, as the code has it: a login whose pair is not the admin pair never gets a token;
its status is 500 when no signing secret is configured, else 400 when username or password
is missing or falsy, else 401. -/
theorem postLogin_wrong_pair (env : Env) (jwt : JwtLib) (now : Nat) (req : Request)
    (hwrong : ((JsValue.lookup "username" req.body).strictEq env.AdminUsername &&
      (JsValue.lookup "password" req.body).strictEq env.AdminPassword) = false) :
    (postLogin env jwt now req).body.get "token" = .undefined ∧
    (postLogin env jwt now req).status =
      (if strFalsy env.JWTSecret then 500
        else if (JsValue.lookup "username" req.body).falsy ||
          (JsValue.lookup "password" req.body).falsy then 400
        else 401) := by
  unfold postLogin
  simp only [hwrong]
  split
  · exact ⟨by simp [errorResponse, errorBody, JsValue.get, JsValue.lookup], rfl⟩
  · split
    · exact ⟨by simp [errorResponse, errorBody, JsValue.get, JsValue.lookup], rfl⟩
    · exact ⟨by simp [errorResponse, errorBody, JsValue.get, JsValue.lookup], rfl⟩

/-- C3 at the pair (eve, x) against the admin pair (admin, hunter2), secret configured. -/
theorem postLogin_wrong_pair_witness :
    (postLogin sampleEnv sampleJwt 0
      ⟨none, [("username", .str "eve"), ("password", .str "x")], "", none⟩).status = 401 := by
  have h := (postLogin_wrong_pair sampleEnv sampleJwt 0
    ⟨none, [("username", .str "eve"), ("password", .str "x")], "", none⟩ (by decide)).2
  simpa [sampleEnv, strFalsy, JsValue.lookup, JsValue.falsy] using h

/-- C3 fails as stated: with no signing secret a wrong pair gets 500, and with a secret but
no password it gets 400. -/
theorem postLogin_wrong_pair_not_401 :
    ((JsValue.lookup "username" [("username", JsValue.str "eve"), ("password", .str "x")]).strictEq
        (some "admin") = false) ∧
    (postLogin ⟨none, some "admin", some "hunter2"⟩ sampleJwt 0
      ⟨none, [("username", .str "eve"), ("password", .str "x")], "", none⟩).status = 500 ∧
    ((JsValue.lookup "username" [("username", JsValue.str "eve")]).strictEq
        (some "admin") = false) ∧
    (postLogin sampleEnv sampleJwt 0
      ⟨none, [("username", .str "eve")], "", none⟩).status = 400 := by
  decide

/-- C4: with a signing secret and an admin pair configured, a login carrying the admin pair
gets 200 with a token; the gate, given `Bearer <token>` under the same secret, passes the
request through with the admin username as identity at every time below one hour after
issue, and answers 403 at every time from the expiry on. -/
theorem login_token_accepted_for_one_hour (env : Env) (jwt : JwtLib) (now : Nat)
    (req : Request) (secret u p : String)
    (hsecret : env.JWTSecret = some secret) (hsne : secret ≠ "")
    (hu : env.AdminUsername = some u) (hune : u ≠ "")
    (hp : env.AdminPassword = some p) (hpne : p ≠ "")
    (hbu : JsValue.lookup "username" req.body = .str u)
    (hbp : JsValue.lookup "password" req.body = .str p)
    (hjwt : jwt.Honours (.obj [("username", .str u)]) secret oneHour now) :
    ∃ token, postLogin env jwt now req = ⟨200, loginBody token⟩ ∧
      ∀ (t : Nat) (req2 : Request), req2.authorization = some ("Bearer " ++ token) →
        (t < now + oneHour → ∃ user,
          authenticateToken env jwt t req2 = .next { req2 with user := some user } ∧
          user.get "username" = .str u) ∧
        (now + oneHour ≤ t →
          authenticateToken env jwt t req2
            = .respond (errorResponse 403 "Error: Token Invalid o Expired")) := by
  obtain ⟨hne, hsp, hok, hexp⟩ := hjwt
  refine ⟨jwt.sign (.obj [("username", .str u)]) secret oneHour now, ?_, ?_⟩
  · simp [postLogin, hsecret, strFalsy, hsne, hbu, hbp, JsValue.falsy, hune, hpne, hu, hp,
      JsValue.strictEq, loginBody]
  · intro t req2 hauth
    have hb : bearerToken req2 = some (jwt.sign (.obj [("username", .str u)]) secret oneHour now) := by
      have e : ("Bearer " : String) = "Bearer" ++ " " := by decide
      have h1 : space ∉ "Bearer".data := by decide
      simp only [bearerToken, hauth, Option.some_bind, e]
      rw [splitSpace_second _ _ h1]
      exact splitSpace_first_no_space _ hsp
    have hg := gate_verify env jwt t req2 _ secret hb hne hsecret hsne
    constructor
    · intro ht
      obtain ⟨user, hv, hname⟩ := hok t ht
      rw [hv] at hg
      exact ⟨user, hg, by simpa [JsValue.get, JsValue.lookup] using hname⟩
    · intro ht
      rw [hexp t ht] at hg
      exact hg

theorem sampleJwt_honours :
    sampleJwt.Honours (.obj [("username", .str "admin")]) "s3cret" oneHour 0 := by
  refine ⟨by decide, by decide, ?_, ?_⟩
  · intro t ht
    have ht2 : t < oneHour := by omega
    refine ⟨.obj [("username", .str "admin"), ("iat", .num 0), ("exp", .num 3600)], ?_, rfl⟩
    simp [sampleJwt, ht2]
  · intro t ht
    have ht2 : ¬ t < oneHour := by omega
    simp [sampleJwt, ht2]

/-- C4 at the admin pair (admin, hunter2) under the secret `s3cret`, issued at time 0. -/
theorem login_token_accepted_for_one_hour_witness :
    ∃ token,
      postLogin sampleEnv sampleJwt 0
        ⟨none, [("username", .str "admin"), ("password", .str "hunter2")], "", none⟩
        = ⟨200, loginBody token⟩ ∧
      ∀ (t : Nat) (req2 : Request), req2.authorization = some ("Bearer " ++ token) →
        (t < 0 + oneHour → ∃ user,
          authenticateToken sampleEnv sampleJwt t req2 = .next { req2 with user := some user } ∧
          user.get "username" = .str "admin") ∧
        (0 + oneHour ≤ t →
          authenticateToken sampleEnv sampleJwt t req2
            = .respond (errorResponse 403 "Error: Token Invalid o Expired")) :=
  login_token_accepted_for_one_hour sampleEnv sampleJwt 0
    ⟨none, [("username", .str "admin"), ("password", .str "hunter2")], "", none⟩
    "s3cret" "admin" "hunter2" rfl (by decide) rfl (by decide) rfl (by decide) rfl rfl
    sampleJwt_honours

/-! ## Gate and validation run before the store -/

theorem gate_respond_status (env : Env) (jwt : JwtLib) (now : Nat) (req : Request)
    (res : Response) (h : authenticateToken env jwt now req = .respond res) :
    res.status = 401 ∨ res.status = 403 ∨ res.status = 500 := by
  rcases gate_cases env jwt now req with
    ⟨_, h1⟩ | ⟨_, _, h1⟩ | ⟨_, _, _, _, _, _, _, h1⟩ | ⟨_, _, _, _, _, _, _, _, h1⟩
  all_goals rw [h1] at h
  · cases h; simp [errorResponse]
  · cases h; simp [errorResponse]
  · cases h; simp [errorResponse]
  · cases h

theorem lookup_absent (k : String) (fields : List (String × JsValue))
    (h : JsValue.hasKey k fields = false) : JsValue.lookup k fields = .undefined := by
  induction fields with
  | nil => rfl
  | cons kv rest ih =>
    obtain ⟨k1, v1⟩ := kv
    simp only [JsValue.hasKey, List.any_cons, Bool.or_eq_false_iff, beq_eq_false_iff_ne] at h
    simp only [JsValue.lookup]
    rw [if_neg h.1]
    exact ih (by simpa [JsValue.hasKey] using h.2)

/-- C2: on `POST /posts` and `PUT /posts/:id` the stages run in the order gate, validation,
store.  When the gate rejects, its 401, 403 or 500 response is the response, whatever the
body; when the gate passes and one of title, content, author is absent or falsy, the
response is the 400 with the missing-fields message; in both cases no statement is issued
and the relation is unchanged. -/
theorem mutating_routes_reject_before_store (env : Env) (jwt : JwtLib) (drv : Driver)
    (now : Nat) (fault : Option StoreError) (db : Db) (req : Request) :
    (∀ res, authenticateToken env jwt now req = .respond res →
      (res.status = 401 ∨ res.status = 403 ∨ res.status = 500) ∧
      postPosts env jwt drv now fault db req = ⟨res, db, []⟩ ∧
      putPost env jwt drv now fault db req = ⟨res, db, []⟩) ∧
    (Authorized env jwt now req →
      ((JsValue.lookup "title" req.body).falsy = true ∨
        (JsValue.lookup "content" req.body).falsy = true ∨
        (JsValue.lookup "author" req.body).falsy = true) →
      postPosts env jwt drv now fault db req
        = ⟨⟨400, errorBody "Error: Missing fields must be filled (title, content, author)"⟩,
            db, []⟩ ∧
      putPost env jwt drv now fault db req
        = ⟨⟨400, errorBody "Error: Missing fields must be filled (title, content, author)"⟩,
            db, []⟩) ∧
    (∀ k, JsValue.hasKey k req.body = false → (JsValue.lookup k req.body).falsy = true) := by
  refine ⟨?_, ?_, ?_⟩
  · intro res h
    exact ⟨gate_respond_status env jwt now req res h, by simp [postPosts, guarded, h],
      by simp [putPost, guarded, h]⟩
  · intro hauth hmiss
    obtain ⟨user, hu⟩ := hauth
    have hcond : ((JsValue.lookup "title" req.body).falsy ||
        (JsValue.lookup "content" req.body).falsy ||
        (JsValue.lookup "author" req.body).falsy) = true := by
      rcases hmiss with h | h | h <;> simp [h]
    constructor
    · simp [postPosts, guarded, hu, postPostsHandler, hcond, missingFields, errorResponse]
    · simp [putPost, guarded, hu, putPostHandler, hcond, missingFields, errorResponse]
  · intro k hk
    have := lookup_absent k req.body hk
    rw [this]; rfl

/-- C2 at a request with a valid token and the body `{title:"A"}`. -/
theorem mutating_routes_reject_before_store_witness :
    Authorized sampleEnv sampleJwt 0 { sampleReq with body := [("title", .str "A")] } ∧
    postPosts sampleEnv sampleJwt sampleDriver 0 none emptyDb
        { sampleReq with body := [("title", .str "A")] }
      = ⟨⟨400, errorBody "Error: Missing fields must be filled (title, content, author)"⟩,
          emptyDb, []⟩ :=
  have hauth : Authorized sampleEnv sampleJwt 0
      { sampleReq with body := [("title", .str "A")] } := ⟨_, rfl⟩
  ⟨hauth,
    ((mutating_routes_reject_before_store sampleEnv sampleJwt sampleDriver 0 none emptyDb
      { sampleReq with body := [("title", .str "A")] }).2.1 hauth (Or.inr (Or.inl rfl))).1⟩

/-! ## Store failures -/

theorem getPosts_failure (drv : Driver) (fault : Option StoreError) (db : Db) (req : Request)
    (q : Query) (e : StoreError) (hq : q ∈ (getPosts drv fault db req).issued)
    (hfail : poolQuery drv fault db q = .error e) :
    getPosts drv fault db req = ⟨storeFailure, db, [q]⟩ := by
  simp only [getPosts, List.mem_singleton] at hq ⊢
  have hq2 : q = Query.selectAll := by
    split at hq <;> simpa using hq
  subst hq2
  rw [hfail]

theorem getPostById_failure (drv : Driver) (fault : Option StoreError) (db : Db)
    (req : Request) (q : Query) (e : StoreError)
    (hq : q ∈ (getPostById drv fault db req).issued)
    (hfail : poolQuery drv fault db q = .error e) :
    getPostById drv fault db req = ⟨storeFailure, db, [q]⟩ := by
  simp only [getPostById] at hq ⊢
  have hq2 : q = Query.selectById req.id := by
    split at hq
    · split at hq <;> simpa using hq
    · simpa using hq
  subst hq2
  rw [hfail]

theorem postPostsHandler_failure (drv : Driver) (fault : Option StoreError) (db : Db)
    (req : Request) (q : Query) (e : StoreError)
    (hq : q ∈ (postPostsHandler drv fault db req).issued)
    (hfail : poolQuery drv fault db q = .error e) :
    postPostsHandler drv fault db req = ⟨storeFailure, db, [q]⟩ := by
  simp only [postPostsHandler] at hq ⊢
  split at hq
  · simp at hq
  · rename_i hc
    have hq2 : q = Query.insert (JsValue.lookup "title" req.body)
        (JsValue.lookup "content" req.body) (JsValue.lookup "author" req.body) := by
      split at hq <;> simpa using hq
    subst hq2
    rw [if_neg hc, hfail]

theorem putPostHandler_failure (drv : Driver) (fault : Option StoreError) (db : Db)
    (req : Request) (q : Query) (e : StoreError)
    (hq : q ∈ (putPostHandler drv fault db req).issued)
    (hfail : poolQuery drv fault db q = .error e) :
    putPostHandler drv fault db req = ⟨storeFailure, db, [q]⟩ := by
  simp only [putPostHandler] at hq ⊢
  split at hq
  · simp at hq
  · rename_i hc
    have hq2 : q = Query.update (JsValue.lookup "title" req.body)
        (JsValue.lookup "content" req.body) (JsValue.lookup "author" req.body) req.id := by
      split at hq
      · split at hq <;> simpa using hq
      · simpa using hq
    subst hq2
    rw [if_neg hc, hfail]

theorem deletePostHandler_failure (drv : Driver) (fault : Option StoreError) (db : Db)
    (req : Request) (q : Query) (e : StoreError)
    (hq : q ∈ (deletePostHandler drv fault db req).issued)
    (hfail : poolQuery drv fault db q = .error e) :
    deletePostHandler drv fault db req = ⟨storeFailure, db, [q]⟩ := by
  simp only [deletePostHandler] at hq ⊢
  have hq2 : q = Query.delete req.id := by
    split at hq
    · split at hq <;> simpa using hq
    · simpa using hq
  subst hq2
  rw [hfail]

theorem guarded_failure (env : Env) (jwt : JwtLib) (now : Nat)
    (handler : Db → Request → Outcome) (db : Db) (req : Request) (q : Query)
    (hq : q ∈ (guarded env jwt now handler db req).issued) :
    ∃ req2, guarded env jwt now handler db req = handler db req2 := by
  unfold guarded at hq ⊢
  cases hg : authenticateToken env jwt now req with
  | respond res => simp [hg] at hq
  | next req2 => exact ⟨req2, rfl⟩

/-- C9: on each of the five /posts endpoints, whenever the statement the handler issues
fails, with whatever error value `e`, the handler still answers, with status 500 and the
body `{error: "Unsuccessful: Something went wrong! Please try again later."}`, a constant
in which nothing of `e` appears; the relation is left as it was. -/
theorem store_failure_is_uniform (env : Env) (jwt : JwtLib) (drv : Driver) (db : Db)
    (c : Call) (q : Query) (e : StoreError)
    (hq : q ∈ (app env jwt drv db c).issued)
    (hfail : poolQuery drv c.fault db q = .error e) :
    app env jwt drv db c
      = ⟨⟨500, errorBody "Unsuccessful: Something went wrong! Please try again later."⟩,
          db, [q]⟩ := by
  unfold app at hq ⊢
  cases hep : c.endpoint with
  | login => simp [hep] at hq
  | listPosts =>
    simp only [hep] at hq ⊢
    exact getPosts_failure drv c.fault db c.req q e hq hfail
  | getPost =>
    simp only [hep] at hq ⊢
    exact getPostById_failure drv c.fault db c.req q e hq hfail
  | createPost =>
    simp only [hep, postPosts] at hq ⊢
    obtain ⟨req2, h2⟩ := guarded_failure env jwt c.now _ db c.req q hq
    rw [h2] at hq ⊢
    exact postPostsHandler_failure drv c.fault db req2 q e hq hfail
  | updatePost =>
    simp only [hep, putPost] at hq ⊢
    obtain ⟨req2, h2⟩ := guarded_failure env jwt c.now _ db c.req q hq
    rw [h2] at hq ⊢
    exact putPostHandler_failure drv c.fault db req2 q e hq hfail
  | deletePost =>
    simp only [hep, deletePost] at hq ⊢
    obtain ⟨req2, h2⟩ := guarded_failure env jwt c.now _ db c.req q hq
    rw [h2] at hq ⊢
    exact deletePostHandler_failure drv c.fault db req2 q e hq hfail

/-- C9 at `GET /posts` with a refused connection. -/
theorem store_failure_is_uniform_witness :
    app sampleEnv sampleJwt sampleDriver emptyDb ⟨.listPosts, sampleReq, 0, some "ECONNREFUSED"⟩
      = ⟨⟨500, errorBody "Unsuccessful: Something went wrong! Please try again later."⟩,
          emptyDb, [Query.selectAll]⟩ :=
  store_failure_is_uniform sampleEnv sampleJwt sampleDriver emptyDb
    ⟨.listPosts, sampleReq, 0, some "ECONNREFUSED"⟩ Query.selectAll "ECONNREFUSED"
    (by simp [app, getPosts, poolQuery]) rfl

/-! ## Create, then read -/

theorem poolQuery_insert_text (drv : Driver) (db : Db) (t c a : String)
    (htext : drv.StoresText) :
    poolQuery drv none db (.insert (.str t) (.str c) (.str a))
      = .ok (⟨[], db.nextId, 1⟩,
          ⟨db.rows ++ [⟨db.nextId, some t, some c, some a⟩], db.nextId + 1⟩) := by
  simp [poolQuery, htext t, htext c, htext a]

theorem filter_hit_fresh (drv : Driver) (db : Db) (s : String) (hwf : db.WF)
    (haddr : drv.Addresses s db.nextId) : db.rows.filter (drv.hit s) = [] := by
  rw [List.filter_eq_nil_iff]
  intro r hr
  have hlt := hwf r hr
  have hne : r.id ≠ db.nextId := by omega
  simp [Driver.hit, haddr r.id, hne]

/-- C5, as the code has it: for every relation whose keys lie below the counter and every
authorized `POST /posts` whose title, content and author are non-empty strings, the
response is 201 with data `{id, title, content, author}` where `id` is the key the store
assigned, and `GET /posts/<id>` right after returns 200 with the same data. -/
theorem post_then_get_round_trip (env : Env) (jwt : JwtLib) (drv : Driver) (now : Nat)
    (db : Db) (req : Request) (t c a : String)
    (hauth : Authorized env jwt now req)
    (ht : JsValue.lookup "title" req.body = .str t) (htne : t ≠ "")
    (hc : JsValue.lookup "content" req.body = .str c) (hcne : c ≠ "")
    (ha : JsValue.lookup "author" req.body = .str a) (hane : a ≠ "")
    (hwf : db.WF) (htext : drv.StoresText)
    (haddr : drv.Addresses (idSegment db.nextId) db.nextId) :
    postPosts env jwt drv now none db req
      = ⟨⟨201, successBody "Success: A post has been created!"
            (.obj [("id", .num db.nextId), ("title", .str t), ("content", .str c),
              ("author", .str a)])⟩,
          ⟨db.rows ++ [⟨db.nextId, some t, some c, some a⟩], db.nextId + 1⟩,
          [Query.insert (.str t) (.str c) (.str a)]⟩ ∧
    ∀ req2 : Request, req2.id = idSegment db.nextId →
      (getPostById drv none (postPosts env jwt drv now none db req).db req2).response
        = ⟨200, successBody "Success: A post has been retrieved!"
            (.obj [("id", .num db.nextId), ("title", .str t), ("content", .str c),
              ("author", .str a)])⟩ := by
  obtain ⟨user, hu⟩ := hauth
  have hpost : postPosts env jwt drv now none db req
      = ⟨⟨201, successBody "Success: A post has been created!"
            (.obj [("id", .num db.nextId), ("title", .str t), ("content", .str c),
              ("author", .str a)])⟩,
          ⟨db.rows ++ [⟨db.nextId, some t, some c, some a⟩], db.nextId + 1⟩,
          [Query.insert (.str t) (.str c) (.str a)]⟩ := by
    simp [postPosts, guarded, hu, postPostsHandler, ht, hc, ha, JsValue.falsy, htne, hcne,
      hane, poolQuery_insert_text drv db t c a htext]
  refine ⟨hpost, ?_⟩
  intro req2 hid
  rw [hpost]
  have hnew : drv.hit (idSegment db.nextId) ⟨db.nextId, some t, some c, some a⟩ = true := by
    simp [Driver.hit, haddr db.nextId]
  simp [getPostById, poolQuery, hid, List.filter_append, filter_hit_fresh drv db _ hwf haddr,
    List.filter_cons, hnew, Post.toJs, textToJs]

theorem sampleDriver_storesText : sampleDriver.StoresText := fun _ => rfl

theorem idSegment_one : idSegment 1 = "1" := by decide

theorem sampleDriver_addresses_one : sampleDriver.Addresses (idSegment 1) 1 := by
  intro k
  have h : parseDecimal 0 "1".data = some 1 := by decide
  have h1 : ("1" : String) ≠ "" := by decide
  simp only [sampleDriver, idSegment_one, h]
  by_cases hk : k = 1
  · subst hk; decide
  · have hk2 : ¬ (1 = k) := fun e => hk e.symm
    simp [hk, hk2]

theorem emptyDb_wf : emptyDb.WF := by
  intro r hr
  simp [emptyDb] at hr

/-- C5 at the empty relation and the body `{title:"A", content:"B", author:"C"}`. -/
theorem post_then_get_round_trip_witness :
    Authorized sampleEnv sampleJwt 0 sampleReq ∧
    (postPosts sampleEnv sampleJwt sampleDriver 0 none emptyDb sampleReq).response
      = ⟨201, successBody "Success: A post has been created!"
          (.obj [("id", .num 1), ("title", .str "A"), ("content", .str "B"),
            ("author", .str "C")])⟩ ∧
    (getPostById sampleDriver none
        (postPosts sampleEnv sampleJwt sampleDriver 0 none emptyDb sampleReq).db
        { sampleReq with id := idSegment 1 }).response
      = ⟨200, successBody "Success: A post has been retrieved!"
          (.obj [("id", .num 1), ("title", .str "A"), ("content", .str "B"),
            ("author", .str "C")])⟩ :=
  have hauth : Authorized sampleEnv sampleJwt 0 sampleReq := ⟨_, rfl⟩
  have h := post_then_get_round_trip sampleEnv sampleJwt sampleDriver 0 emptyDb sampleReq
    "A" "B" "C" hauth rfl (by decide) rfl (by decide) rfl (by decide) emptyDb_wf
    sampleDriver_storesText sampleDriver_addresses_one
  ⟨hauth, congrArg Outcome.response h.1, h.2 { sampleReq with id := idSegment 1 } rfl⟩

/-- C5 fails as stated: the authorized `POST /posts` with the body
`{title: 1, content:"B", author:"C"}` has all three fields present and gets 201 with the
number 1 as title, while `GET /posts/1` right after returns the stored text `"1"` as title,
so the two data differ. -/
theorem post_then_get_differs_on_number :
    Authorized sampleEnv sampleJwt 0 numericTitleReq ∧
    (postPosts sampleEnv sampleJwt sampleDriver 0 none emptyDb numericTitleReq).response
      = ⟨201, successBody "Success: A post has been created!"
          (.obj [("id", .num 1), ("title", .num 1), ("content", .str "B"),
            ("author", .str "C")])⟩ ∧
    (getPostById sampleDriver none
        (postPosts sampleEnv sampleJwt sampleDriver 0 none emptyDb numericTitleReq).db
        { numericTitleReq with id := idSegment 1 }).response
      = ⟨200, successBody "Success: A post has been retrieved!"
          (.obj [("id", .num 1), ("title", .str "1"), ("content", .str "B"),
            ("author", .str "C")])⟩ ∧
    ((postPosts sampleEnv sampleJwt sampleDriver 0 none emptyDb numericTitleReq).response.body.get
        "data").get "title"
      ≠ ((getPostById sampleDriver none
          (postPosts sampleEnv sampleJwt sampleDriver 0 none emptyDb numericTitleReq).db
          { numericTitleReq with id := idSegment 1 }).response.body.get "data").get "title" := by
  refine ⟨⟨_, rfl⟩, rfl, rfl, ?_⟩
  intro h
  have h1 : ((postPosts sampleEnv sampleJwt sampleDriver 0 none emptyDb
      numericTitleReq).response.body.get "data").get "title" = .num 1 := rfl
  have h2 : ((getPostById sampleDriver none
      (postPosts sampleEnv sampleJwt sampleDriver 0 none emptyDb numericTitleReq).db
      { numericTitleReq with id := idSegment 1 }).response.body.get "data").get "title"
      = .str "1" := rfl
  rw [h1, h2] at h
  cases h

/-! ## Update -/

/-- The rows after `UPDATE ... WHERE id = ?`. -/
theorem update_rows_no_hit (drv : Driver) (id : String) (t c a : Option String)
    (rows : List Post) (h : rows.filter (drv.hit id) = []) :
    rows.map (fun r => if drv.hit id r then (⟨r.id, t, c, a⟩ : Post) else r) = rows := by
  rw [List.filter_eq_nil_iff] at h
  conv_rhs => rw [← List.map_id rows]
  apply List.map_congr_left
  intro r hr
  simp [h r hr]

theorem update_rows_filter_hit (drv : Driver) (id : String) (t c a : Option String)
    (rows : List Post) :
    (rows.map (fun r => if drv.hit id r then (⟨r.id, t, c, a⟩ : Post) else r)).filter
        (drv.hit id)
      = (rows.filter (drv.hit id)).map (fun r => ⟨r.id, t, c, a⟩) := by
  induction rows with
  | nil => rfl
  | cons r rest ih =>
    by_cases hr : drv.hit id r = true
    · have hr2 : drv.hit id ⟨r.id, t, c, a⟩ = true := by simpa [Driver.hit] using hr
      simp [List.filter_cons, hr, hr2, ih]
    · simp [List.filter_cons, hr, ih]

theorem update_rows_filter_other (drv : Driver) (id : String) (t c a : Option String)
    (rows : List Post) :
    (rows.map (fun r => if drv.hit id r then (⟨r.id, t, c, a⟩ : Post) else r)).filter
        (fun r => !drv.hit id r)
      = rows.filter (fun r => !drv.hit id r) := by
  induction rows with
  | nil => rfl
  | cons r rest ih =>
    by_cases hr : drv.hit id r = true
    · have hr2 : drv.hit id ⟨r.id, t, c, a⟩ = true := by simpa [Driver.hit] using hr
      simp [List.filter_cons, hr, hr2, ih]
    · simp [List.filter_cons, hr, ih]

theorem update_rows_keys (drv : Driver) (id : String) (t c a : Option String)
    (rows : List Post) :
    (rows.map (fun r => if drv.hit id r then (⟨r.id, t, c, a⟩ : Post) else r)).map Post.id
      = rows.map Post.id := by
  rw [List.map_map]
  apply List.map_congr_left
  intro r _
  by_cases hr : drv.hit id r = true <;> simp [hr]

theorem putPost_text (env : Env) (jwt : JwtLib) (drv : Driver) (now : Nat) (db : Db)
    (req : Request) (t c a : String) (hauth : Authorized env jwt now req)
    (ht : JsValue.lookup "title" req.body = .str t) (htne : t ≠ "")
    (hc : JsValue.lookup "content" req.body = .str c) (hcne : c ≠ "")
    (ha : JsValue.lookup "author" req.body = .str a) (hane : a ≠ "")
    (htext : drv.StoresText) :
    putPost env jwt drv now none db req
      = if (db.rows.filter (drv.hit req.id)).length = 0 then
          ⟨notFound,
            ⟨db.rows.map (fun r => if drv.hit req.id r then ⟨r.id, some t, some c, some a⟩ else r),
              db.nextId⟩,
            [Query.update (.str t) (.str c) (.str a) req.id]⟩
        else
          ⟨⟨200, successBody "Success: A post has been updated!"
              (.obj [("id", .str req.id), ("title", .str t), ("content", .str c),
                ("author", .str a)])⟩,
            ⟨db.rows.map (fun r => if drv.hit req.id r then ⟨r.id, some t, some c, some a⟩ else r),
              db.nextId⟩,
            [Query.update (.str t) (.str c) (.str a) req.id]⟩ := by
  obtain ⟨user, hu⟩ := hauth
  simp only [putPost, guarded, hu, putPostHandler, ht, hc, ha, JsValue.falsy, poolQuery,
    htext t, htext c, htext a]
  simp [htne, hcne, hane]

/-- C6, as the code has it: for every relation, id and authorized `PUT /posts/:id` whose
title, content and author are non-empty strings: when the id selects no row the response is
404 and the
relation is unchanged; otherwise the response is 200 with the id and the three new values
as data, `GET /posts/:id` right after returns a row selected by that id whose title, content
and author are exactly the new values, and the rows the id does not select, the keys and
the counter are unchanged. -/
theorem put_replaces_all_fields (env : Env) (jwt : JwtLib) (drv : Driver) (now : Nat)
    (db : Db) (req : Request) (t c a : String) (hauth : Authorized env jwt now req)
    (ht : JsValue.lookup "title" req.body = .str t) (htne : t ≠ "")
    (hc : JsValue.lookup "content" req.body = .str c) (hcne : c ≠ "")
    (ha : JsValue.lookup "author" req.body = .str a) (hane : a ≠ "")
    (htext : drv.StoresText) :
    (db.rows.filter (drv.hit req.id) = [] →
      (putPost env jwt drv now none db req).response
        = ⟨404, errorBody "Unsuccessful: Post cannot be found!"⟩ ∧
      (putPost env jwt drv now none db req).db = db) ∧
    (db.rows.filter (drv.hit req.id) ≠ [] →
      (putPost env jwt drv now none db req).response
        = ⟨200, successBody "Success: A post has been updated!"
            (.obj [("id", .str req.id), ("title", .str t), ("content", .str c),
              ("author", .str a)])⟩ ∧
      (∀ req2 : Request, req2.id = req.id → ∃ k, drv.idEq k req.id = true ∧
        (getPostById drv none (putPost env jwt drv now none db req).db req2).response
          = ⟨200, successBody "Success: A post has been retrieved!"
              (.obj [("id", .num k), ("title", .str t), ("content", .str c),
                ("author", .str a)])⟩) ∧
      (putPost env jwt drv now none db req).db.rows.filter (fun r => !drv.hit req.id r)
        = db.rows.filter (fun r => !drv.hit req.id r) ∧
      (putPost env jwt drv now none db req).db.rows.map Post.id = db.rows.map Post.id ∧
      (putPost env jwt drv now none db req).db.nextId = db.nextId) := by
  have hput := putPost_text env jwt drv now db req t c a hauth ht htne hc hcne ha hane htext
  constructor
  · intro hnone
    rw [hput]
    simp [hnone, update_rows_no_hit drv req.id _ _ _ db.rows hnone, notFound, errorResponse]
  · intro hsome
    have hlen : ¬ (db.rows.filter (drv.hit req.id)).length = 0 := by
      simpa [List.length_eq_zero] using hsome
    rw [hput, if_neg hlen]
    refine ⟨rfl, ?_, update_rows_filter_other drv req.id _ _ _ db.rows,
      update_rows_keys drv req.id _ _ _ db.rows, rfl⟩
    intro req2 hid
    obtain ⟨r, rest, hr⟩ := List.exists_cons_of_ne_nil hsome
    have hmem : r ∈ db.rows.filter (drv.hit req.id) := by rw [hr]; simp
    refine ⟨r.id, by simpa [Driver.hit] using (List.mem_filter.1 hmem).2, ?_⟩
    simp [getPostById, poolQuery, hid, update_rows_filter_hit, hr, Post.toJs, textToJs]

/-- C6 at `PUT /posts/1` on a relation holding row 1 with old values. -/
theorem put_replaces_all_fields_witness :
    Authorized sampleEnv sampleJwt 0 sampleReq ∧
    oneRowDb.rows.filter (sampleDriver.hit sampleReq.id) ≠ [] ∧
    (putPost sampleEnv sampleJwt sampleDriver 0 none oneRowDb sampleReq).db.rows
      = [⟨1, some "A", some "B", some "C"⟩] ∧
    (putPost sampleEnv sampleJwt sampleDriver 0 none oneRowDb sampleReq).response
      = ⟨200, successBody "Success: A post has been updated!"
          (.obj [("id", .str "1"), ("title", .str "A"), ("content", .str "B"),
            ("author", .str "C")])⟩ :=
  have hauth : Authorized sampleEnv sampleJwt 0 sampleReq := ⟨_, rfl⟩
  have hhit : oneRowDb.rows.filter (sampleDriver.hit sampleReq.id) ≠ [] := by decide
  ⟨hauth, hhit, by decide,
    ((put_replaces_all_fields sampleEnv sampleJwt sampleDriver 0 oneRowDb sampleReq
      "A" "B" "C" hauth rfl (by decide) rfl (by decide) rfl (by decide)
      sampleDriver_storesText).2 hhit).1⟩

/-- C6 fails as stated: the authorized `PUT /posts/1` with the body
`{title: 1, content:"B", author:"C"}` on a relation holding row 1 has all three fields
present and gets 200 with the number 1 as title, while `GET /posts/1` right after returns
the stored text `"1"` as title, not exactly the value that was sent. -/
theorem put_then_get_differs_on_number :
    Authorized sampleEnv sampleJwt 0 numericTitleReq ∧
    oneRowDb.rows.filter (sampleDriver.hit numericTitleReq.id) ≠ [] ∧
    (putPost sampleEnv sampleJwt sampleDriver 0 none oneRowDb numericTitleReq).response
      = ⟨200, successBody "Success: A post has been updated!"
          (.obj [("id", .str "1"), ("title", .num 1), ("content", .str "B"),
            ("author", .str "C")])⟩ ∧
    (getPostById sampleDriver none
        (putPost sampleEnv sampleJwt sampleDriver 0 none oneRowDb numericTitleReq).db
        numericTitleReq).response
      = ⟨200, successBody "Success: A post has been retrieved!"
          (.obj [("id", .num 1), ("title", .str "1"), ("content", .str "B"),
            ("author", .str "C")])⟩ ∧
    JsValue.lookup "title" numericTitleReq.body
      ≠ ((getPostById sampleDriver none
          (putPost sampleEnv sampleJwt sampleDriver 0 none oneRowDb numericTitleReq).db
          numericTitleReq).response.body.get "data").get "title" := by
  refine ⟨⟨_, rfl⟩, by decide, rfl, rfl, ?_⟩
  intro h
  have h1 : JsValue.lookup "title" numericTitleReq.body = .num 1 := rfl
  have h2 : ((getPostById sampleDriver none
      (putPost sampleEnv sampleJwt sampleDriver 0 none oneRowDb numericTitleReq).db
      numericTitleReq).response.body.get "data").get "title" = .str "1" := rfl
  rw [h1, h2] at h
  cases h

/-! ## Delete -/

theorem deletePost_authorized (env : Env) (jwt : JwtLib) (drv : Driver) (now : Nat)
    (db : Db) (req : Request) (hauth : Authorized env jwt now req) :
    deletePost env jwt drv now none db req
      = if (db.rows.filter (drv.hit req.id)).length = 0 then
          ⟨notFound, ⟨db.rows.filter (fun r => !drv.hit req.id r), db.nextId⟩,
            [Query.delete req.id]⟩
        else
          ⟨⟨200, successBody "Success: A post has been deleted!" (.obj [("id", .str req.id)])⟩,
            ⟨db.rows.filter (fun r => !drv.hit req.id r), db.nextId⟩, [Query.delete req.id]⟩ := by
  obtain ⟨user, hu⟩ := hauth
  simp only [deletePost, guarded, hu, deletePostHandler, poolQuery]

theorem delete_rows_no_hit (drv : Driver) (id : String) (rows : List Post)
    (h : rows.filter (drv.hit id) = []) : rows.filter (fun r => !drv.hit id r) = rows := by
  rw [List.filter_eq_nil_iff] at h
  rw [List.filter_eq_self]
  intro r hr
  simpa using h r hr

theorem delete_rows_filter_hit (drv : Driver) (id : String) (rows : List Post) :
    (rows.filter (fun r => !drv.hit id r)).filter (drv.hit id) = [] := by
  rw [List.filter_eq_nil_iff]
  intro r hr
  simpa using (List.mem_filter.1 hr).2

theorem deletePost_missing (env : Env) (jwt : JwtLib) (drv : Driver) (now : Nat)
    (db : Db) (req : Request) (hauth : Authorized env jwt now req)
    (hnone : db.rows.filter (drv.hit req.id) = []) :
    deletePost env jwt drv now none db req = ⟨notFound, db, [Query.delete req.id]⟩ := by
  rw [deletePost_authorized env jwt drv now db req hauth]
  simp [hnone, delete_rows_no_hit drv req.id db.rows hnone]

theorem run_delete_missing (env : Env) (jwt : JwtLib) (drv : Driver) (now : Nat)
    (db : Db) (req : Request) (hauth : Authorized env jwt now req)
    (hnone : db.rows.filter (drv.hit req.id) = []) (n : Nat) :
    run env jwt drv db (List.replicate n ⟨.deletePost, req, now, none⟩) = db := by
  induction n with
  | zero => rfl
  | succ n ih =>
    simp only [List.replicate_succ, run, app]
    rw [deletePost_missing env jwt drv now db req hauth hnone]
    exact ih

/-- C7: for every relation and authorized `DELETE /posts/:id`: when the id selects no row
the response is 404 and the relation is unchanged, so after any number of such deletes the
next one gets 404 again; when the id selects a row the response is 200 with data `{id}`,
exactly the selected rows are removed, and `GET /posts/:id` right after gets 404. -/
theorem delete_not_found_and_found (env : Env) (jwt : JwtLib) (drv : Driver) (now : Nat)
    (db : Db) (req : Request) (hauth : Authorized env jwt now req) :
    (db.rows.filter (drv.hit req.id) = [] →
      (deletePost env jwt drv now none db req).response
        = ⟨404, errorBody "Unsuccessful: Post cannot be found!"⟩ ∧
      (deletePost env jwt drv now none db req).db = db ∧
      ∀ n : Nat,
        run env jwt drv db (List.replicate n ⟨.deletePost, req, now, none⟩) = db ∧
        (app env jwt drv (run env jwt drv db (List.replicate n ⟨.deletePost, req, now, none⟩))
          ⟨.deletePost, req, now, none⟩).response
          = ⟨404, errorBody "Unsuccessful: Post cannot be found!"⟩) ∧
    (db.rows.filter (drv.hit req.id) ≠ [] →
      (deletePost env jwt drv now none db req).response
        = ⟨200, successBody "Success: A post has been deleted!" (.obj [("id", .str req.id)])⟩ ∧
      (deletePost env jwt drv now none db req).db
        = ⟨db.rows.filter (fun r => !drv.hit req.id r), db.nextId⟩ ∧
      ∀ req2 : Request, req2.id = req.id →
        (getPostById drv none (deletePost env jwt drv now none db req).db req2).response
          = ⟨404, errorBody "Unsuccessful: Post cannot be found!"⟩) := by
  constructor
  · intro hnone
    have hdel := deletePost_missing env jwt drv now db req hauth hnone
    refine ⟨by rw [hdel]; rfl, by rw [hdel], ?_⟩
    intro n
    have hrun := run_delete_missing env jwt drv now db req hauth hnone n
    refine ⟨hrun, ?_⟩
    rw [hrun]
    simp only [app]
    rw [hdel]; rfl
  · intro hsome
    have hlen : ¬ (db.rows.filter (drv.hit req.id)).length = 0 := by
      simpa [List.length_eq_zero] using hsome
    rw [deletePost_authorized env jwt drv now db req hauth, if_neg hlen]
    refine ⟨rfl, rfl, ?_⟩
    intro req2 hid
    simp [getPostById, poolQuery, hid, delete_rows_filter_hit, notFound, errorResponse]

/-- C7 at `DELETE /posts/1` on a relation holding row 1. -/
theorem delete_not_found_and_found_witness :
    Authorized sampleEnv sampleJwt 0 sampleReq ∧
    oneRowDb.rows.filter (sampleDriver.hit sampleReq.id) ≠ [] ∧
    (deletePost sampleEnv sampleJwt sampleDriver 0 none oneRowDb sampleReq).db = ⟨[], 2⟩ ∧
    (deletePost sampleEnv sampleJwt sampleDriver 0 none oneRowDb sampleReq).response
      = ⟨200, successBody "Success: A post has been deleted!" (.obj [("id", .str "1")])⟩ :=
  have hauth : Authorized sampleEnv sampleJwt 0 sampleReq := ⟨_, rfl⟩
  have hhit : oneRowDb.rows.filter (sampleDriver.hit sampleReq.id) ≠ [] := by decide
  ⟨hauth, hhit, by rfl,
    ((delete_not_found_and_found sampleEnv sampleJwt sampleDriver 0 oneRowDb sampleReq
      hauth).2 hhit).1⟩

/-! ## The text invariant -/

theorem gate_next_body (env : Env) (jwt : JwtLib) (now : Nat) (req req2 : Request)
    (h : authenticateToken env jwt now req = .next req2) :
    req2.body = req.body ∧ req2.id = req.id := by
  rcases gate_cases env jwt now req with
    ⟨_, h1⟩ | ⟨_, _, h1⟩ | ⟨_, _, _, _, _, _, _, h1⟩ | ⟨_, _, _, _, _, _, _, _, h1⟩
  all_goals rw [h1] at h
  · cases h
  · cases h
  · cases h
  · cases h; exact ⟨rfl, rfl⟩

theorem truthy_text (req : Request) (k : String) (h : TextOrFalsy req k)
    (ht : (JsValue.lookup k req.body).falsy = false) :
    ∃ s, JsValue.lookup k req.body = .str s ∧ s ≠ "" := by
  rcases h with h | ⟨s, hs⟩
  · rw [h] at ht; cases ht
  · refine ⟨s, hs, ?_⟩
    rw [hs] at ht
    simpa [JsValue.falsy] using ht

theorem postPostsHandler_invariant (drv : Driver) (fault : Option StoreError) (db : Db)
    (req : Request) (htext : drv.StoresText) (hbody : TextBody req)
    (hinv : TextInvariant db) : TextInvariant (postPostsHandler drv fault db req).db := by
  unfold postPostsHandler
  simp only
  split
  · exact hinv
  · rename_i hc
    simp only [Bool.or_eq_true, not_or, Bool.not_eq_true] at hc
    obtain ⟨t, ht, htne⟩ := truthy_text req "title" hbody.1 hc.1.1
    obtain ⟨c, hcc, hcne⟩ := truthy_text req "content" hbody.2.1 hc.1.2
    obtain ⟨a, ha, hane⟩ := truthy_text req "author" hbody.2.2 hc.2
    cases fault with
    | some e => simpa [poolQuery] using hinv
    | none =>
      rw [ht, hcc, ha, poolQuery_insert_text drv db t c a htext]
      intro r hr
      simp only [List.mem_append, List.mem_singleton] at hr
      rcases hr with hr | hr
      · exact hinv r hr
      · subst hr
        exact ⟨⟨t, rfl, htne⟩, ⟨c, rfl, hcne⟩, ⟨a, rfl, hane⟩⟩

theorem putPostHandler_invariant (drv : Driver) (fault : Option StoreError) (db : Db)
    (req : Request) (htext : drv.StoresText) (hbody : TextBody req)
    (hinv : TextInvariant db) : TextInvariant (putPostHandler drv fault db req).db := by
  unfold putPostHandler
  simp only
  split
  · exact hinv
  · rename_i hc
    simp only [Bool.or_eq_true, not_or, Bool.not_eq_true] at hc
    obtain ⟨t, ht, htne⟩ := truthy_text req "title" hbody.1 hc.1.1
    obtain ⟨c, hcc, hcne⟩ := truthy_text req "content" hbody.2.1 hc.1.2
    obtain ⟨a, ha, hane⟩ := truthy_text req "author" hbody.2.2 hc.2
    cases fault with
    | some e => simpa [poolQuery] using hinv
    | none =>
      rw [ht, hcc, ha]
      simp only [poolQuery, htext t, htext c, htext a]
      have hnew : TextInvariant
          ⟨db.rows.map (fun r => if drv.hit req.id r then ⟨r.id, some t, some c, some a⟩ else r),
            db.nextId⟩ := by
        intro r hr
        simp only [List.mem_map] at hr
        obtain ⟨r0, hr0, rfl⟩ := hr
        by_cases hh : drv.hit req.id r0 = true
        · simp only [hh, if_true]
          exact ⟨⟨t, rfl, htne⟩, ⟨c, rfl, hcne⟩, ⟨a, rfl, hane⟩⟩
        · simp only [hh]
          exact hinv r0 hr0
      split <;> exact hnew

theorem deletePostHandler_invariant (drv : Driver) (fault : Option StoreError) (db : Db)
    (req : Request) (hinv : TextInvariant db) :
    TextInvariant (deletePostHandler drv fault db req).db := by
  unfold deletePostHandler
  cases fault with
  | some e => simpa [poolQuery] using hinv
  | none =>
    simp only [poolQuery]
    have hnew : TextInvariant ⟨db.rows.filter (fun r => !drv.hit req.id r), db.nextId⟩ :=
      fun r hr => hinv r (List.mem_filter.1 hr).1
    split <;> exact hnew

theorem getPosts_db (drv : Driver) (fault : Option StoreError) (db : Db) (req : Request) :
    (getPosts drv fault db req).db = db := by
  cases fault <;> simp [getPosts, poolQuery]

theorem getPostById_db (drv : Driver) (fault : Option StoreError) (db : Db) (req : Request) :
    (getPostById drv fault db req).db = db := by
  cases fault with
  | some e => simp [getPostById, poolQuery]
  | none =>
    simp only [getPostById, poolQuery]
    split <;> rfl

theorem guarded_invariant (env : Env) (jwt : JwtLib) (now : Nat)
    (handler : Db → Request → Outcome) (db : Db) (req : Request) (hinv : TextInvariant db)
    (hh : ∀ req2, req2.body = req.body → TextInvariant (handler db req2).db) :
    TextInvariant (guarded env jwt now handler db req).db := by
  unfold guarded
  cases hg : authenticateToken env jwt now req with
  | respond res => exact hinv
  | next req2 => exact hh req2 (gate_next_body env jwt now req req2 hg).1

theorem app_invariant (env : Env) (jwt : JwtLib) (drv : Driver) (db : Db) (c : Call)
    (htext : drv.StoresText)
    (hbody : c.endpoint = .createPost ∨ c.endpoint = .updatePost → TextBody c.req)
    (hinv : TextInvariant db) :
    TextInvariant (app env jwt drv db c).db := by
  unfold app
  cases hep : c.endpoint with
  | login => exact hinv
  | listPosts => simp only; rw [getPosts_db]; exact hinv
  | getPost => simp only; rw [getPostById_db]; exact hinv
  | createPost =>
    refine guarded_invariant env jwt c.now _ db c.req hinv ?_
    intro req2 hb
    exact postPostsHandler_invariant drv c.fault db req2 htext
      (by simpa [TextBody, TextOrFalsy, hb] using hbody (Or.inl hep)) hinv
  | updatePost =>
    refine guarded_invariant env jwt c.now _ db c.req hinv ?_
    intro req2 hb
    exact putPostHandler_invariant drv c.fault db req2 htext
      (by simpa [TextBody, TextOrFalsy, hb] using hbody (Or.inr hep)) hinv
  | deletePost =>
    refine guarded_invariant env jwt c.now _ db c.req hinv ?_
    intro req2 _
    exact deletePostHandler_invariant drv c.fault db req2 hinv

theorem postPostsHandler_issues_iff (drv : Driver) (fault : Option StoreError) (db : Db)
    (req : Request) :
    (postPostsHandler drv fault db req).issued ≠ [] ↔
      ((JsValue.lookup "title" req.body).falsy = false ∧
        (JsValue.lookup "content" req.body).falsy = false ∧
        (JsValue.lookup "author" req.body).falsy = false) := by
  unfold postPostsHandler
  simp only
  split
  · rename_i hc
    simp only [Bool.or_eq_true] at hc
    constructor
    · intro h; exact absurd rfl h
    · rintro ⟨h1, h2, h3⟩
      rcases hc with (hc | hc) | hc <;> simp_all
  · rename_i hc
    simp only [Bool.or_eq_true, not_or, Bool.not_eq_true] at hc
    constructor
    · intro _; exact ⟨hc.1.1, hc.1.2, hc.2⟩
    · intro _
      split <;> simp

theorem putPostHandler_issues_iff (drv : Driver) (fault : Option StoreError) (db : Db)
    (req : Request) :
    (putPostHandler drv fault db req).issued ≠ [] ↔
      ((JsValue.lookup "title" req.body).falsy = false ∧
        (JsValue.lookup "content" req.body).falsy = false ∧
        (JsValue.lookup "author" req.body).falsy = false) := by
  unfold putPostHandler
  simp only
  split
  · rename_i hc
    simp only [Bool.or_eq_true] at hc
    constructor
    · intro h; exact absurd rfl h
    · rintro ⟨h1, h2, h3⟩
      rcases hc with (hc | hc) | hc <;> simp_all
  · rename_i hc
    simp only [Bool.or_eq_true, not_or, Bool.not_eq_true] at hc
    constructor
    · intro _; exact ⟨hc.1.1, hc.1.2, hc.2⟩
    · intro _
      split
      · split <;> simp
      · simp

/-- C8, as the code has it: the validation of `POST /posts` and `PUT /posts/:id` lets a body
through to the store exactly when title, content and author are all truthy, which for a
string means non-empty; and starting from a relation in which every row has non-null,
non-empty title, content and author, after any sequence of requests to the six endpoints
in which every title, content and author sent to those two routes is a string or falsy,
every row still has, the store keeping a bound string as it is sent. -/
theorem text_invariant_for_text_bodies (env : Env) (jwt : JwtLib) (drv : Driver) (db : Db)
    (calls : List Call) (htext : drv.StoresText)
    (hbodies : ∀ c ∈ calls, c.endpoint = .createPost ∨ c.endpoint = .updatePost →
      TextBody c.req)
    (hinv : TextInvariant db) :
    TextInvariant (run env jwt drv db calls) ∧
    (∀ (fault : Option StoreError) (d : Db) (req : Request),
      ((postPostsHandler drv fault d req).issued ≠ [] ↔
        ((JsValue.lookup "title" req.body).falsy = false ∧
          (JsValue.lookup "content" req.body).falsy = false ∧
          (JsValue.lookup "author" req.body).falsy = false)) ∧
      ((putPostHandler drv fault d req).issued ≠ [] ↔
        ((JsValue.lookup "title" req.body).falsy = false ∧
          (JsValue.lookup "content" req.body).falsy = false ∧
          (JsValue.lookup "author" req.body).falsy = false))) ∧
    (∀ s : String, (JsValue.str s).falsy = false ↔ (JsValue.str s).IsNonEmptyText) := by
  refine ⟨?_, fun fault d req =>
    ⟨postPostsHandler_issues_iff drv fault d req, putPostHandler_issues_iff drv fault d req⟩,
    fun s => by simp [JsValue.falsy, JsValue.IsNonEmptyText]⟩
  induction calls generalizing db with
  | nil => exact hinv
  | cons c cs ih =>
    simp only [run]
    apply ih
    · intro c2 hc2
      exact hbodies c2 (List.mem_cons_of_mem c hc2)
    · exact app_invariant env jwt drv db c htext (hbodies c (List.mem_cons_self c cs)) hinv

/-- C8 at one `POST /posts` with the body `{title:"A", content:"B", author:"C"}`. -/
theorem text_invariant_for_text_bodies_witness :
    TextInvariant emptyDb ∧
    TextInvariant (run sampleEnv sampleJwt sampleDriver emptyDb
      [⟨.createPost, sampleReq, 0, none⟩]) ∧
    (run sampleEnv sampleJwt sampleDriver emptyDb [⟨.createPost, sampleReq, 0, none⟩]).rows
      = [⟨1, some "A", some "B", some "C"⟩] :=
  have hinv : TextInvariant emptyDb := fun r hr => by simp [emptyDb] at hr
  have hbody : TextBody sampleReq :=
    ⟨Or.inr ⟨"A", rfl⟩, Or.inr ⟨"B", rfl⟩, Or.inr ⟨"C", rfl⟩⟩
  ⟨hinv,
    (text_invariant_for_text_bodies sampleEnv sampleJwt sampleDriver emptyDb
      [⟨.createPost, sampleReq, 0, none⟩] sampleDriver_storesText
      (fun c hc _ => by
        simp only [List.mem_singleton] at hc
        subst hc
        exact hbody) hinv).1,
    by decide⟩

/-- C8 fails as stated: the validation admits the body `{title: 1, content:"B", author:"C"}`,
whose title is not text, and the insert is issued with the number bound; and under a driver
that expands a bound array, the body `{title: [""], content:"B", author:"C"}` passes the
validation and leaves a row with an empty title. -/
theorem validation_admits_non_text :
    ¬ (JsValue.num 1).IsNonEmptyText ∧
    postPosts sampleEnv sampleJwt sampleDriver 0 none emptyDb
        { sampleReq with body := [("title", .num 1), ("content", .str "B"),
          ("author", .str "C")] }
      = ⟨⟨201, successBody "Success: A post has been created!"
            (.obj [("id", .num 1), ("title", .num 1), ("content", .str "B"),
              ("author", .str "C")])⟩,
          ⟨[⟨1, some "1", some "B", some "C"⟩], 2⟩,
          [Query.insert (.num 1) (.str "B") (.str "C")]⟩ ∧
    TextInvariant emptyDb ∧
    ¬ TextInvariant (run sampleEnv sampleJwt sampleDriver emptyDb
      [⟨.createPost, { sampleReq with body := [("title", .arr [.str ""]), ("content", .str "B"),
        ("author", .str "C")] }, 0, none⟩]) := by
  refine ⟨fun h => h, rfl, fun r hr => by simp [emptyDb] at hr, ?_⟩
  intro h
  have hrows : (run sampleEnv sampleJwt sampleDriver emptyDb
      [⟨.createPost, { sampleReq with body := [("title", .arr [.str ""]), ("content", .str "B"),
        ("author", .str "C")] }, 0, none⟩]).rows = [⟨1, some "", some "B", some "C"⟩] := by
    decide
  have h0 := h ⟨1, some "", some "B", some "C"⟩ (by rw [hrows]; simp)
  obtain ⟨⟨s, hs, hne⟩, _⟩ := h0
  simp only [Option.some.injEq] at hs
  exact hne hs.symm

/-! ## Keys stay below the counter -/

theorem poolQuery_wf (drv : Driver) (fault : Option StoreError) (db db2 : Db) (q : Query)
    (res : QueryResult) (hwf : db.WF) (h : poolQuery drv fault db q = .ok (res, db2)) :
    db2.WF := by
  cases fault with
  | some e => simp [poolQuery] at h
  | none =>
    cases q with
    | selectAll =>
      simp only [poolQuery, Except.ok.injEq, Prod.mk.injEq] at h
      rw [← h.2]; exact hwf
    | selectById id =>
      simp only [poolQuery, Except.ok.injEq, Prod.mk.injEq] at h
      rw [← h.2]; exact hwf
    | insert t c a =>
      simp only [poolQuery] at h
      split at h
      · simp only [Except.ok.injEq, Prod.mk.injEq] at h
        rw [← h.2]
        intro r hr
        simp only [List.mem_append, List.mem_singleton] at hr
        rcases hr with hr | hr
        · have := hwf r hr
          show r.id < db.nextId + 1
          omega
        · subst hr
          show db.nextId < db.nextId + 1
          omega
      all_goals cases h
    | update t c a id =>
      simp only [poolQuery] at h
      split at h
      · simp only [Except.ok.injEq, Prod.mk.injEq] at h
        rw [← h.2]
        intro r hr
        simp only [List.mem_map] at hr
        obtain ⟨r0, hr0, rfl⟩ := hr
        have := hwf r0 hr0
        by_cases hh : drv.hit id r0 = true <;> simpa [hh] using this
      all_goals cases h
    | delete id =>
      simp only [poolQuery, Except.ok.injEq, Prod.mk.injEq] at h
      rw [← h.2]
      exact fun r hr => hwf r (List.mem_filter.1 hr).1

theorem getPosts_wf (drv : Driver) (fault : Option StoreError) (db : Db) (req : Request)
    (hwf : db.WF) : (getPosts drv fault db req).db.WF := by
  rw [getPosts_db]; exact hwf

theorem getPostById_wf (drv : Driver) (fault : Option StoreError) (db : Db) (req : Request)
    (hwf : db.WF) : (getPostById drv fault db req).db.WF := by
  rw [getPostById_db]; exact hwf

theorem postPostsHandler_wf (drv : Driver) (fault : Option StoreError) (db : Db)
    (req : Request) (hwf : db.WF) : (postPostsHandler drv fault db req).db.WF := by
  unfold postPostsHandler
  simp only
  split
  · exact hwf
  · split
    · rename_i res db2 h
      exact poolQuery_wf drv fault db db2 _ res hwf h
    · exact hwf

theorem putPostHandler_wf (drv : Driver) (fault : Option StoreError) (db : Db)
    (req : Request) (hwf : db.WF) : (putPostHandler drv fault db req).db.WF := by
  unfold putPostHandler
  simp only
  split
  · exact hwf
  · split
    · rename_i res db2 h
      have := poolQuery_wf drv fault db db2 _ res hwf h
      split <;> exact this
    · exact hwf

theorem deletePostHandler_wf (drv : Driver) (fault : Option StoreError) (db : Db)
    (req : Request) (hwf : db.WF) : (deletePostHandler drv fault db req).db.WF := by
  unfold deletePostHandler
  simp only
  split
  · rename_i res db2 h
    have := poolQuery_wf drv fault db db2 _ res hwf h
    split <;> exact this
  · exact hwf

theorem guarded_wf (env : Env) (jwt : JwtLib) (now : Nat) (handler : Db → Request → Outcome)
    (db : Db) (req : Request) (hwf : db.WF) (hh : ∀ req2, (handler db req2).db.WF) :
    (guarded env jwt now handler db req).db.WF := by
  unfold guarded
  split
  · exact hwf
  · exact hh _

/-- Every request leaves the keys below the counter. -/
theorem app_wf (env : Env) (jwt : JwtLib) (drv : Driver) (db : Db) (c : Call)
    (hwf : db.WF) : (app env jwt drv db c).db.WF := by
  unfold app
  cases c.endpoint with
  | login => exact hwf
  | listPosts => exact getPosts_wf drv c.fault db c.req hwf
  | getPost => exact getPostById_wf drv c.fault db c.req hwf
  | createPost =>
    exact guarded_wf env jwt c.now _ db c.req hwf
      (fun req2 => postPostsHandler_wf drv c.fault db req2 hwf)
  | updatePost =>
    exact guarded_wf env jwt c.now _ db c.req hwf
      (fun req2 => putPostHandler_wf drv c.fault db req2 hwf)
  | deletePost =>
    exact guarded_wf env jwt c.now _ db c.req hwf
      (fun req2 => deletePostHandler_wf drv c.fault db req2 hwf)

/-- Every sequence of requests leaves the keys below the counter. -/
theorem run_wf (env : Env) (jwt : JwtLib) (drv : Driver) (db : Db) (calls : List Call)
    (hwf : db.WF) : (run env jwt drv db calls).WF := by
  induction calls generalizing db with
  | nil => exact hwf
  | cons c cs ih => exact ih _ (app_wf env jwt drv db c hwf)

end Blog
